import Mathlib

/-!
Verification development for the scrcpy_ui session core: a shallow embedding
of `app/src/figma_bridge.c` (screenshot bridge HTTP endpoint) and of the
orchestration logic of `app/src/scrcpy.c` (retry loop, demuxer callbacks,
secure-content monitor, construction/teardown flags), with theorems about the
spec-level properties of these components.

Machine integers are modelled as `Nat`; C shifts and masks are written as
division/multiplication by powers of two and `% 2 ^ k`, and `uint64_t`
wrap-around is written as an explicit `% 2 ^ 64` where an overflow could occur.
Byte buffers are `List Nat` (each element < 256); a NULL/empty buffer is `[]`.
-/

namespace ScrcpyUI

/-! ## Base64 encoder (`sc_figma_bridge_base64_encode`, figma_bridge.c:27-72) -/

def b64table : List Char :=
  "ABCDEFGHIJKLMNOPQRSTUVWXYZabcdefghijklmnopqrstuvwxyz0123456789+/".data

def b64char (n : Nat) : Char := b64table.getD n 'A'

/-- Shallow embedding of `sc_figma_bridge_base64_encode`: the `while (i + 3 <=
len)` loop becomes structural recursion on 3-byte groups, and the `if (i <
len)` remainder block becomes the 1- and 2-byte cases.  `value >> k & 0x3F` is
written `value / 2 ^ k % 64`. -/
def sc_figma_bridge_base64_encode : List Nat → List Char
  | a :: b :: c :: rest =>
      let value := a * 65536 + b * 256 + c
      b64char (value / 262144 % 64) :: b64char (value / 4096 % 64) ::
        b64char (value / 64 % 64) :: b64char (value % 64) ::
        sc_figma_bridge_base64_encode rest
  | [a, b] =>
      let value := a * 65536 + b * 256
      [b64char (value / 262144 % 64), b64char (value / 4096 % 64),
        b64char (value / 64 % 64), '=']
  | [a] =>
      let value := a * 65536
      [b64char (value / 262144 % 64), b64char (value / 4096 % 64), '=', '=']
  | [] => []

/-- Standard RFC 4648 base64 decoding (the spec side of the round-trip claim):
each 4-character group yields 3 bytes, a trailing `"=="` yields 1 byte and a
trailing `"="` yields 2. -/
def rfc4648Decode : List Char → List Nat
  | c1 :: c2 :: c3 :: c4 :: rest =>
      let v1 := b64table.indexOf c1
      let v2 := b64table.indexOf c2
      let v3 := b64table.indexOf c3
      let v4 := b64table.indexOf c4
      if c3 = '=' then [v1 * 4 + v2 / 16]
      else if c4 = '=' then
        [v1 * 4 + v2 / 16, v2 % 16 * 16 + v3 / 4]
      else
        (v1 * 4 + v2 / 16) :: (v2 % 16 * 16 + v3 / 4) :: (v3 % 4 * 64 + v4) ::
          rfc4648Decode rest
  | _ => []

/-! ## Decimal strings

Helpers for the `after=<seq>` query values: `digitsVal` is the value of a
digit string (the `strtoull` accumulation), `natRepr` prints a number in
base 10 (used to build concrete queries from sequence numbers). -/

def digitsVal (v : List Char) : Nat :=
  v.foldl (fun a c => a * 10 + (c.toNat - 48)) 0

def natRepr (n : Nat) : List Char :=
  if n < 10 then [Char.ofNat (48 + n)]
  else natRepr (n / 10) ++ [Char.ofNat (48 + n % 10)]
  termination_by n
  decreasing_by exact Nat.div_lt_self (by omega) (by omega)

/-! ## Query parsing (`sc_figma_bridge_parse_after_query`, figma_bridge.c:116-162)

The C scanner walks `&`-separated tokens with `strchr`; the first token longer
than 6 characters starting with `"after="` decides the result: its value must
be all decimal digits (`isdigit` loop) and fit the 32-byte `tmp` buffer
(`value_len >= sizeof(tmp)` rejects 32 or more digits), and is then parsed by
`strtoull`, which saturates at `ULLONG_MAX = 2^64 - 1` on overflow.  Walking
`strchr`-separated tokens is modelled by scanning `splitOn '&'` (the only
difference is a trailing empty token after a final `&`, which matches no
check and leads to the same result). -/

/-- The `&`-separated tokens of a query string, as the `strchr` walk of the C
scanner visits them (a final `&` yields a trailing empty token, which matches
no check). -/
def splitAmp : List Char → List (List Char)
  | [] => [[]]
  | c :: rest =>
      if c = '&' then [] :: splitAmp rest
      else (splitAmp rest).modifyHead fun t => c :: t

def scanTokens : List (List Char) → Option Nat
  | [] => some 0
  | t :: rest =>
      if 6 < t.length ∧ t.take 6 = "after=".data then
        let v := t.drop 6
        if v.all Char.isDigit ∧ v.length < 32 then
          some (min (digitsVal v) (2 ^ 64 - 1))
        else none
      else scanTokens rest

def sc_figma_bridge_parse_after_query : Option (List Char) → Option Nat
  | none => some 0
  | some cs => if cs = [] then some 0 else scanTokens (splitAmp cs)

/-- A token that names the `after` parameter at all (any token whose first six
characters are `after=`, including the empty-valued token `after=` itself);
used to state which queries the code treats as carrying no `after`
parameter. -/
def hasAfterToken (cs : List Char) : Bool :=
  (splitAmp cs).any (fun t => decide (t.take 6 = "after=".data))

/-- The value of the first token of a token list that the C scanner treats as
an `after=` parameter (token length strictly greater than 6, so an
empty-valued `after=` token is skipped). -/
def afterTokenValue (ts : List (List Char)) : Option (List Char) :=
  (ts.find?
      (fun t => decide (6 < t.length) && decide (t.take 6 = "after=".data))).map
    (List.drop 6)

/-- The value of the first `after=` token of a query, as the C scanner sees
it. -/
def firstAfterValue (cs : List Char) : Option (List Char) :=
  afterTokenValue (splitAmp cs)

/-! ## Bridge state (`struct sc_figma_bridge`, figma_bridge.c)

The mutex-guarded fields `{sequence, png_data/png_size, width, height,
running}`; `png = []` models `png_data == NULL` (and `png_size == 0`).
Fallible `malloc` calls take an explicit allocation-success oracle. -/

structure Bridge where
  sequence : Nat
  png : List Nat
  width : Nat
  height : Nat
  running : Bool
deriving DecidableEq

/-- State set up by `sc_figma_bridge_init` (figma_bridge.c:378-408). -/
def bridgeInit : Bridge :=
  { sequence := 0, png := [], width := 0, height := 0, running := false }

/-- `sc_figma_bridge_publish_png` (figma_bridge.c:460-487): on allocation
failure, log and return false; otherwise replace the snapshot and increment
the `uint64_t` sequence under the lock. -/
def sc_figma_bridge_publish_png (allocOk : Bool) (br : Bridge) (data : List Nat)
    (w h : Nat) : Bool × Bridge :=
  if !allocOk then (false, br)
  else (true, { br with png := data, width := w, height := h,
                        sequence := (br.sequence + 1) % 2 ^ 64 })

structure Snapshot where
  sequence : Nat
  png : List Nat
  width : Nat
  height : Nat
deriving DecidableEq

/-- `sc_figma_bridge_snapshot_newer_than` (figma_bridge.c:164-192):
`available = sequence > after && png_data && png_size`; when available, a copy
is taken (fallible malloc). -/
def sc_figma_bridge_snapshot_newer_than (allocOk : Bool) (br : Bridge)
    (after : Nat) : Option Snapshot :=
  if after < br.sequence ∧ br.png ≠ [] then
    if !allocOk then none
    else some { sequence := br.sequence, png := br.png, width := br.width,
                height := br.height }
  else none

structure HttpResponse where
  code : Nat
  body : List Char
deriving DecidableEq

/-- The JSON body assembled by `sc_figma_bridge_respond_latest`
(figma_bridge.c:232-266). -/
def jsonBody (seq w h : Nat) (b64 : List Char) : List Char :=
  "\x7b\"seq\":".data ++ natRepr seq ++ ",\"width\":".data ++ natRepr w ++
    ",\"height\":".data ++ natRepr h ++ ",\"png_base64\":\"".data ++ b64 ++
    "\"\x7d".data

/-- `sc_figma_bridge_respond_latest` (figma_bridge.c:194-282): 400 on a
malformed query, 204 when no snapshot newer than `after` is available, 500 on
allocation failure while building the body, otherwise 200 with the JSON body.
(The `snprintf(NULL, 0, ...) < 0` formatting-error path cannot occur and is
not modelled.) -/
def sc_figma_bridge_respond_latest (snapAllocOk b64AllocOk bodyAllocOk : Bool)
    (br : Bridge) (query : Option (List Char)) : HttpResponse :=
  match sc_figma_bridge_parse_after_query query with
  | none => { code := 400, body := "Invalid query\n".data }
  | some after =>
      match sc_figma_bridge_snapshot_newer_than snapAllocOk br after with
      | none => { code := 204, body := [] }
      | some snap =>
          if !b64AllocOk then { code := 500, body := "Out of memory\n".data }
          else if !bodyAllocOk then { code := 500, body := "Out of memory\n".data }
          else { code := 200,
                 body := jsonBody snap.sequence snap.width snap.height
                   (sc_figma_bridge_base64_encode snap.png) }

/-! ## Bridge operation traces (for the sequence-number invariants) -/

inductive BridgeOp where
  | publish (allocOk : Bool) (data : List Nat) (w h : Nat)
  | start (threadOk : Bool)
  | stop
  | clear
  | respond (after : Nat)
deriving DecidableEq

/-- Effect of each bridge entry point on the shared state: `publish` is
`sc_figma_bridge_publish_png`; `start`/`stop` only touch `running`
(figma_bridge.c:410-442); `clear` is the field-clearing of
`sc_figma_bridge_destroy` (figma_bridge.c:444-458), which does not touch
`sequence`; `respond` (the reader side) does not write the state at all. -/
def bridgeApply (br : Bridge) : BridgeOp → Bridge
  | .publish allocOk data w h => (sc_figma_bridge_publish_png allocOk br data w h).2
  | .start threadOk => if threadOk then { br with running := true } else br
  | .stop => { br with running := false }
  | .clear => { br with png := [], width := 0, height := 0 }
  | .respond _ => br

def bridgeRun (br : Bridge) (ops : List BridgeOp) : Bridge :=
  ops.foldl bridgeApply br

/-- Number of successful publishes in a trace. -/
def pubCount (ops : List BridgeOp) : Nat :=
  ops.countP fun op =>
    match op with
    | .publish true _ _ _ => true
    | _ => false

/-- The sequence numbers attached to the successfully published snapshots of a
trace, in order. -/
def publishedSeqs (br : Bridge) : List BridgeOp → List Nat
  | [] => []
  | op :: rest =>
      match op with
      | .publish true _ _ _ =>
          (br.sequence + 1) % 2 ^ 64 :: publishedSeqs (bridgeApply br op) rest
      | _ => publishedSeqs (bridgeApply br op) rest

/-- Traces whose publishes respect the `assert(png_data); assert(png_size)`
precondition and that do not pass through `sc_figma_bridge_destroy`. -/
def goodOps (ops : List BridgeOp) : Bool :=
  ops.all fun op =>
    match op with
    | .publish _ data _ _ => !data.isEmpty
    | .clear => false
    | _ => true

/-! ## Exit codes, events and the main event loop (scrcpy.c) -/

inductive ExitCode where
  | success
  | failure
  | disconnected
deriving DecidableEq

inductive SEvent where
  | deviceDisconnected
  | serverConnectionFailed
  | serverConnected
  | demuxerError
  | controllerError
  | recorderError
  | aoaOpenError
  | timeLimitReached
  | sdlQuit
  | runOnMainThread
  | screenEvent (handledOk : Bool)
deriving DecidableEq

/-- `event_loop` (scrcpy.c:285-341) over the sequence of events the session
delivers: terminal events map to their exit codes, non-terminal events
continue; for any other event, a failing `sc_screen_handle_event` (when a
screen exists) is fatal.  An exhausted event source models `SDL_WaitEvent`
failing, which exits with failure. -/
def event_loop (hasScreen : Bool) : List SEvent → ExitCode
  | [] => .failure
  | e :: rest =>
      match e with
      | .deviceDisconnected => .disconnected
      | .serverConnectionFailed => .disconnected
      | .serverConnected => event_loop hasScreen rest
      | .demuxerError => .failure
      | .controllerError => .failure
      | .recorderError => .failure
      | .aoaOpenError => .failure
      | .timeLimitReached => .success
      | .sdlQuit => .success
      | .runOnMainThread => event_loop hasScreen rest
      | .screenEvent ok =>
          if hasScreen && !ok then .failure else event_loop hasScreen rest

/-! ## Demuxer ended callbacks (scrcpy.c:434-466) -/

inductive DemuxStatus where
  | eos
  | error
  | disabled
deriving DecidableEq

/-- `sc_video_demuxer_on_ended`: the device may not disable video
(`assert(status != SC_DEMUXER_STATUS_DISABLED)`); EOS posts a disconnection,
anything else posts a demuxer error. -/
def sc_video_demuxer_on_ended (status : DemuxStatus) : Option SEvent :=
  if status = .eos then some .deviceDisconnected
  else some .demuxerError

/-- `sc_audio_demuxer_on_ended`: EOS posts a disconnection; an error, or a
disabled stream when `--require-audio` is set, posts a demuxer error;
otherwise (disabled without `require_audio`) nothing is posted and mirroring
continues. -/
def sc_audio_demuxer_on_ended (status : DemuxStatus) (require_audio : Bool) :
    Option SEvent :=
  if status = .eos then some .deviceDisconnected
  else if status = .error ∨ (status = .disabled ∧ require_audio = true) then
    some .demuxerError
  else none

/-! ## Retry backoff (`wait_retry_delay`, scrcpy.c:358-391)

Events are timestamped with their arrival offset (ms) from the start of the
wait; an event at or past the deadline models `SDL_WaitEventTimeout`
returning 0 (timeout). -/

inductive BackoffEvent where
  | quit
  | runnable
  | screenEvent (handledOk : Bool)
deriving DecidableEq

def wait_retry_delay (hasScreen : Bool) (delay : Nat) :
    List (Nat × BackoffEvent) → Bool
  | [] => true
  | (t, e) :: rest =>
      if delay ≤ t then true
      else
        match e with
        | .quit => false
        | .runnable => wait_retry_delay hasScreen delay rest
        | .screenEvent ok =>
            if hasScreen && !ok then false
            else wait_retry_delay hasScreen delay rest

inductive SessionTail where
  | retryNew
  | exitWith (code : ExitCode)
deriving DecidableEq

/-- The orchestrator logic that runs after `event_loop` returns `ret`
(scrcpy.c:1166-1173 and 1290-1297): decide `retry`/`stop` from the exit
reason and the presence of a display window, then either leave the loop with
`ret`, abort the backoff with success, or start a fresh session.  Both
`retry` and `stop` are still false when the event loop has run, so this
models exactly the code's `retry`/`stop` assignments. -/
def afterEventLoop (ret : ExitCode) (screenInitialized : Bool)
    (backoff : List (Nat × BackoffEvent)) : SessionTail :=
  let retry := decide (ret = ExitCode.disconnected) && screenInitialized
  let stop := !retry
  if stop || !retry then .exitWith ret
  else if !wait_retry_delay screenInitialized 1000 backoff then
    .exitWith .success
  else .retryNew

/-! ## Secure-content monitor (scrcpy.c:96-199) -/

structure MonState where
  reported : Bool
  last_bouncer_showing : Bool
deriving DecidableEq

/-- Fields set by `sc_secure_content_monitor_init` (scrcpy.c:157-172). -/
def monInit : MonState :=
  { reported := false, last_bouncer_showing := false }

/-- One poll iteration of `run_secure_content_monitor` (scrcpy.c:127-155).
`poll = none` models `sc_adb_is_keyguard_bouncer_showing` failing; `some b`
is a successful read of the bouncer-showing boolean.  The second component is
the secure-content event pushed by `sc_push_secure_content_event`, if any. -/
def run_secure_content_monitor_step (m : MonState) (poll : Option Bool) :
    MonState × Option Bool :=
  match poll with
  | none => (m, none)
  | some b =>
      if !m.reported || b != m.last_bouncer_showing then
        ({ reported := true, last_bouncer_showing := b }, some b)
      else (m, none)

def monFold (m : MonState) (polls : List (Option Bool)) : MonState :=
  polls.foldl (fun s p => (run_secure_content_monitor_step s p).1) m

/-- The values of the secure-content events posted along a sequence of
polls. -/
def monEvents (m : MonState) : List (Option Bool) → List Bool
  | [] => []
  | p :: rest =>
      match run_secure_content_monitor_step m p with
      | (s, some b) => b :: monEvents s rest
      | (s, none) => monEvents s rest

/-! ## Session construction and teardown (claim C2; scrcpy.c:560-1306)

The construction sequence of `scrcpy()` (from `sc_server_init` to
`event_loop`), with every fallible call decided by an explicit oracle, and
the teardown call sequence after the `session_end` label, guarded by the
per-component flags exactly as in the source.  Options that only trigger
infallible, unflagged work (`audio_playback` wiring the audio player,
`turn_screen_off`, gamepad-event priming) are not modelled, as they touch no
flag and issue no teardown call. -/

inductive KeyboardMode where
  | disabled
  | sdk
  | uhid
  | aoa
deriving DecidableEq

inductive MouseMode where
  | disabled
  | sdk
  | uhid
  | aoa
deriving DecidableEq

inductive GamepadMode where
  | disabled
  | uhid
  | aoa
deriving DecidableEq

inductive AwaitResult where
  | connected
  | userQuit
  | connectionFailed
  | error
deriving DecidableEq

structure Opts where
  window : Bool
  video_playback : Bool
  video : Bool
  audio : Bool
  control : Bool
  list : Bool
  record : Bool
  v4l2 : Bool
  time_limit : Bool
  start_app : Bool
  keyboard : KeyboardMode
  mouse : MouseMode
  gamepad : GamepadMode
deriving DecidableEq

/-- Success/failure of every fallible call of one construction attempt, plus
the `await_for_server` outcome and the `event_loop` result. -/
structure Oracle where
  screen_init : Bool
  server_init : Bool
  server_start : Bool
  await : AwaitResult
  secure_monitor_init : Bool
  secure_monitor_start : Bool
  file_pusher_init : Bool
  recorder_init : Bool
  recorder_start : Bool
  controller_init : Bool
  acksync_init : Bool
  usb_init : Bool
  usb_select : Bool
  usb_connect : Bool
  aoa_init : Bool
  keyboard_aoa_init : Bool
  mouse_aoa_init : Bool
  aoa_start : Bool
  keyboard_uhid_init : Bool
  mouse_uhid_init : Bool
  controller_start : Bool
  v4l2_init : Bool
  video_demuxer_start : Bool
  audio_demuxer_start : Bool
  timeout_init : Bool
  timeout_start : Bool
  strdup_ok : Bool
  event_ret : ExitCode
deriving DecidableEq

/-- The per-component flags declared at the top of the session loop
(scrcpy.c:655-678), plus the `acksync` pointer and `retry`/`stop`. -/
structure Flags where
  server_started : Bool
  file_pusher_initialized : Bool
  recorder_initialized : Bool
  recorder_started : Bool
  v4l2_sink_initialized : Bool
  video_demuxer_started : Bool
  audio_demuxer_started : Bool
  aoa_hid_initialized : Bool
  keyboard_aoa_initialized : Bool
  mouse_aoa_initialized : Bool
  gamepad_aoa_initialized : Bool
  controller_initialized : Bool
  controller_started : Bool
  timeout_initialized : Bool
  timeout_started : Bool
  secure_monitor_initialized : Bool
  secure_monitor_started : Bool
  acksync_set : Bool
  retry : Bool
  stop : Bool
deriving DecidableEq

def flags0 : Flags :=
  ⟨false, false, false, false, false, false, false, false, false, false,
   false, false, false, false, false, false, false, false, false, false⟩

/-- The `retry`/`stop` decision after `event_loop` returns
(scrcpy.c:1166-1173). -/
def stageRetryStop (r : Oracle) (sc : Bool) (f : Flags) : Flags :=
  if decide (r.event_ret = ExitCode.disconnected) && sc then
    { f with retry := true }
  else { f with stop := true }

/-- `--start-app` strdup (scrcpy.c:1144-1161). -/
def stageStartApp (o : Opts) (r : Oracle) (sc : Bool) (f : Flags) : Flags :=
  if o.control && o.start_app && !r.strdup_ok then f
  else stageRetryStop r sc f

/-- `sc_timeout_start` (scrcpy.c:1130-1136). -/
def stageTimeoutStart (o : Opts) (r : Oracle) (sc : Bool) (f : Flags) : Flags :=
  if o.time_limit && !r.timeout_start then f
  else stageStartApp o r sc
    (if o.time_limit then { f with timeout_started := true } else f)

/-- `sc_timeout_init` (scrcpy.c:1117-1124). -/
def stageTimeoutInit (o : Opts) (r : Oracle) (sc : Bool) (f : Flags) : Flags :=
  if o.time_limit && !r.timeout_init then f
  else stageTimeoutStart o r sc
    (if o.time_limit then { f with timeout_initialized := true } else f)

/-- Audio demuxer start (scrcpy.c:1100-1105). -/
def stageAudioDemux (o : Opts) (r : Oracle) (sc : Bool) (f : Flags) : Flags :=
  if o.audio && !r.audio_demuxer_start then f
  else stageTimeoutInit o r sc
    (if o.audio then { f with audio_demuxer_started := true } else f)

/-- Video demuxer start (scrcpy.c:1093-1098). -/
def stageVideoDemux (o : Opts) (r : Oracle) (sc : Bool) (f : Flags) : Flags :=
  if o.video && !r.video_demuxer_start then f
  else stageAudioDemux o r sc
    (if o.video then { f with video_demuxer_started := true } else f)

/-- V4L2 sink init (scrcpy.c:1073-1091), head of the construction tail that
runs after the controller section. -/
def stageTail (o : Opts) (r : Oracle) (sc : Bool) (f : Flags) : Flags :=
  if o.v4l2 && !r.v4l2_init then f
  else stageVideoDemux o r sc
    (if o.v4l2 then { f with v4l2_sink_initialized := true } else f)

/-- UHID input processors and controller start (scrcpy.c:992-1039), still
inside `if (options->control)`. -/
def stageUhid (o : Opts) (r : Oracle) (sc : Bool) (f : Flags) : Flags :=
  if decide (o.keyboard = KeyboardMode.uhid) && !r.keyboard_uhid_init then f
  else if decide (o.mouse = MouseMode.uhid) && !r.mouse_uhid_init then f
  else if !r.controller_start then f
  else stageTail o r sc { f with controller_started := true }

/-- `aoa_fail` raised by a failed HID-keyboard init (scrcpy.c:947-955). -/
def kbAoaFail (o : Opts) (r : Oracle) : Bool :=
  decide (o.keyboard = KeyboardMode.aoa) && !r.keyboard_aoa_init

/-- `aoa_fail` raised by a failed HID-mouse init, which is only reached when
the keyboard did not already `goto aoa_complete` (scrcpy.c:958-966). -/
def mouseAoaFail (o : Opts) (r : Oracle) : Bool :=
  !kbAoaFail o r && (decide (o.mouse = MouseMode.aoa) && !r.mouse_aoa_init)

def setKeyboardAoa (o : Opts) (r : Oracle) (f : Flags) : Flags :=
  if decide (o.keyboard = KeyboardMode.aoa) && r.keyboard_aoa_init then
    { f with keyboard_aoa_initialized := true }
  else f

def setMouseAoa (o : Opts) (r : Oracle) (f : Flags) : Flags :=
  if !kbAoaFail o r && (decide (o.mouse = MouseMode.aoa) && r.mouse_aoa_init) then
    { f with mouse_aoa_initialized := true }
  else f

def setGamepadAoa (o : Opts) (r : Oracle) (f : Flags) : Flags :=
  if !kbAoaFail o r && (!mouseAoaFail o r &&
      decide (o.gamepad = GamepadMode.aoa)) then
    { f with gamepad_aoa_initialized := true }
  else f

/-- The AOA keyboard/mouse/gamepad inits and `sc_aoa_start`
(scrcpy.c:946-986), reached after acksync/usb/connect/aoa-init all
succeeded; on `aoa_fail` or a failed start, the inline cleanup runs and the
already-set per-device AOA flags survive, but `aoa_hid_initialized` (and the
`acksync` pointer) are never set. -/
def stageAoaTail (o : Opts) (r : Oracle) (sc : Bool) (f : Flags) : Flags :=
  if kbAoaFail o r || mouseAoaFail o r || !r.aoa_start then
    setGamepadAoa o r (setMouseAoa o r (setKeyboardAoa o r f))
  else stageUhid o r sc
    { setGamepadAoa o r (setMouseAoa o r (setKeyboardAoa o r f)) with
        aoa_hid_initialized := true, acksync_set := true }

/-- The controller section (scrcpy.c:884-1039): controller init, the AOA/USB
block when any AOA input mode is selected (with inline cleanup on failure),
then the UHID processors and controller start. -/
def stageControl (o : Opts) (r : Oracle) (sc : Bool) (f : Flags) : Flags :=
  if !o.control then stageTail o r sc f
  else if !r.controller_init then f
  else
    let f := { f with controller_initialized := true }
    if decide (o.keyboard = KeyboardMode.aoa) ||
        decide (o.mouse = MouseMode.aoa) ||
        decide (o.gamepad = GamepadMode.aoa) then
      if !r.acksync_init then f
      else if !r.usb_init then f
      else if !r.usb_select then f
      else if !r.usb_connect then f
      else if !r.aoa_init then f
      else stageAoaTail o r sc f
    else stageUhid o r sc f

/-- The secure-content monitor setup (scrcpy.c:800-814): started only when
both init and thread start succeed; a failed start destroys the monitor
inline and resets `secure_monitor_initialized`. -/
def setSecureMonitor (r : Oracle) (sc vp : Bool) (f : Flags) : Flags :=
  if sc && vp then
    if r.secure_monitor_init then
      if r.secure_monitor_start then
        { f with secure_monitor_initialized := true,
                 secure_monitor_started := true }
      else f
    else f
  else f

/-- `sc_recorder_start` (scrcpy.c:869-872). -/
def stageRecorderStart (o : Opts) (r : Oracle) (sc : Bool) (f : Flags) : Flags :=
  if o.record && !r.recorder_start then f
  else stageControl o r sc
    (if o.record then { f with recorder_started := true } else f)

/-- `sc_recorder_init` (scrcpy.c:861-867). -/
def stageRecorderInit (o : Opts) (r : Oracle) (sc : Bool) (f : Flags) : Flags :=
  if o.record && !r.recorder_init then f
  else stageRecorderStart o r sc
    (if o.record then { f with recorder_initialized := true } else f)

/-- `sc_file_pusher_init` (scrcpy.c:816-823). -/
def stageFilePusher (o : Opts) (r : Oracle) (sc : Bool) (f : Flags) : Flags :=
  if o.video_playback && o.control && !r.file_pusher_init then f
  else stageRecorderInit o r sc
    (if o.video_playback && o.control then
      { f with file_pusher_initialized := true } else f)

/-- Secure monitor, file pusher, demuxer/decoder init (void) and recorder
(scrcpy.c:800-882), then the controller section. -/
def stageMid (o : Opts) (r : Oracle) (sc : Bool) (f : Flags) : Flags :=
  stageFilePusher o r sc (setSecureMonitor r sc o.video_playback f)

/-- The flags in force when control reaches the `session_end` label, for a
given options/oracle pair; `none` when no session teardown runs at all
(`sc_screen_init` failed before the loop, or `sc_server_init` failed and the
loop breaks). -/
def scrcpySessionFlags (o : Opts) (r : Oracle) : Option Flags :=
  if o.window && !r.screen_init then none
  else if !r.server_init then none
  else if !r.server_start then some flags0
  else if o.list then some { flags0 with server_started := true, stop := true }
  else
    match r.await with
    | .connectionFailed =>
        if o.window then
          some { flags0 with server_started := true, retry := true }
        else some { flags0 with server_started := true, stop := true }
    | .userQuit => some { flags0 with server_started := true, stop := true }
    | .error => some { flags0 with server_started := true, stop := true }
    | .connected =>
        some (stageMid o r o.window { flags0 with server_started := true })

inductive Comp where
  | server
  | screen
  | secureMonitor
  | timeout
  | filePusher
  | recorder
  | controller
  | videoDemuxer
  | audioDemuxer
  | v4l2sink
  | acksync
  | usb
  | aoa
  | keyboardAoa
  | mouseAoa
  | gamepadAoa
deriving DecidableEq

inductive Act where
  | stop
  | join
  | destroy
  | interrupt
  | disconnect
deriving DecidableEq

/-- The guarded teardown sequence after `session_end` (scrcpy.c:1175-1297),
one `(guard, component, action)` entry per call, in source order.  The final
`sc_server_destroy` is unconditional. -/
def teardownTable (sc : Bool) (f : Flags) : List (Bool × Comp × Act) :=
  [(f.secure_monitor_started, Comp.secureMonitor, Act.stop),
   (f.timeout_started, Comp.timeout, Act.stop),
   (f.aoa_hid_initialized && f.keyboard_aoa_initialized,
     Comp.keyboardAoa, Act.destroy),
   (f.aoa_hid_initialized && f.mouse_aoa_initialized,
     Comp.mouseAoa, Act.destroy),
   (f.aoa_hid_initialized && f.gamepad_aoa_initialized,
     Comp.gamepadAoa, Act.destroy),
   (f.aoa_hid_initialized, Comp.aoa, Act.stop),
   (f.aoa_hid_initialized, Comp.usb, Act.stop),
   (f.acksync_set, Comp.acksync, Act.destroy),
   (f.controller_started, Comp.controller, Act.stop),
   (f.file_pusher_initialized, Comp.filePusher, Act.stop),
   (f.recorder_initialized, Comp.recorder, Act.stop),
   (sc && !f.retry, Comp.screen, Act.interrupt),
   (f.server_started, Comp.server, Act.stop),
   (f.timeout_started, Comp.timeout, Act.join),
   (f.timeout_initialized, Comp.timeout, Act.destroy),
   (f.secure_monitor_started, Comp.secureMonitor, Act.join),
   (f.secure_monitor_initialized, Comp.secureMonitor, Act.destroy),
   (f.video_demuxer_started, Comp.videoDemuxer, Act.join),
   (f.audio_demuxer_started, Comp.audioDemuxer, Act.join),
   (f.v4l2_sink_initialized, Comp.v4l2sink, Act.destroy),
   (f.aoa_hid_initialized, Comp.aoa, Act.join),
   (f.aoa_hid_initialized, Comp.aoa, Act.destroy),
   (f.aoa_hid_initialized, Comp.usb, Act.join),
   (f.aoa_hid_initialized, Comp.usb, Act.disconnect),
   (f.aoa_hid_initialized, Comp.usb, Act.destroy),
   (f.controller_started, Comp.controller, Act.join),
   (f.controller_initialized, Comp.controller, Act.destroy),
   (f.recorder_started, Comp.recorder, Act.join),
   (f.recorder_initialized, Comp.recorder, Act.destroy),
   (f.file_pusher_initialized, Comp.filePusher, Act.join),
   (f.file_pusher_initialized, Comp.filePusher, Act.destroy),
   (f.server_started, Comp.server, Act.join),
   (true, Comp.server, Act.destroy)]

def teardownCalls (sc : Bool) (f : Flags) : List (Comp × Act) :=
  ((teardownTable sc f).filter fun e => e.1).map fun e => e.2

/-- Which oracle bit records that a component's `init` succeeded
(components whose init is `void` in the source map to `true`). -/
def initOk (o : Opts) (r : Oracle) : Comp → Bool
  | .server => r.server_init
  | .screen => o.window && r.screen_init
  | .secureMonitor => r.secure_monitor_init
  | .timeout => r.timeout_init
  | .filePusher => r.file_pusher_init
  | .recorder => r.recorder_init
  | .controller => r.controller_init
  | .videoDemuxer => true
  | .audioDemuxer => true
  | .v4l2sink => r.v4l2_init
  | .acksync => r.acksync_init
  | .usb => r.usb_init
  | .aoa => r.aoa_init
  | .keyboardAoa => r.keyboard_aoa_init
  | .mouseAoa => r.mouse_aoa_init
  | .gamepadAoa => true

/-- Which oracle bit records that a component's `start` succeeded (for the
USB handle, "started" is a successful `sc_usb_connect`; components without a
separate start map to `true`). -/
def startOk (r : Oracle) : Comp → Bool
  | .server => r.server_start
  | .secureMonitor => r.secure_monitor_start
  | .timeout => r.timeout_start
  | .recorder => r.recorder_start
  | .controller => r.controller_start
  | .videoDemuxer => r.video_demuxer_start
  | .audioDemuxer => r.audio_demuxer_start
  | .aoa => r.aoa_start
  | .usb => r.usb_connect
  | _ => true

/-- Soundness of a flag assignment with respect to the oracle: every set flag
is backed by the success of the matching init/start calls. -/
def soundB (o : Opts) (r : Oracle) (f : Flags) : Bool :=
  (!f.server_started || r.server_start) &&
  (!f.secure_monitor_initialized || r.secure_monitor_init) &&
  (!f.secure_monitor_started ||
    (r.secure_monitor_init && r.secure_monitor_start)) &&
  (!f.file_pusher_initialized || r.file_pusher_init) &&
  (!f.recorder_initialized || r.recorder_init) &&
  (!f.recorder_started || (r.recorder_init && r.recorder_start)) &&
  (!f.controller_initialized || r.controller_init) &&
  (!f.controller_started || (r.controller_init && r.controller_start)) &&
  (!f.keyboard_aoa_initialized || r.keyboard_aoa_init) &&
  (!f.mouse_aoa_initialized || r.mouse_aoa_init) &&
  (!f.aoa_hid_initialized ||
    (r.acksync_init && r.usb_init && r.usb_connect && r.aoa_init &&
      r.aoa_start)) &&
  (!f.acksync_set || r.acksync_init) &&
  (!f.v4l2_sink_initialized || r.v4l2_init) &&
  (!f.video_demuxer_started || r.video_demuxer_start) &&
  (!f.audio_demuxer_started || r.audio_demuxer_start) &&
  (!f.timeout_initialized || r.timeout_init) &&
  (!f.timeout_started || (r.timeout_init && r.timeout_start))

lemma b64table_indexOf_b64char : ∀ n < 64, b64table.indexOf (b64char n) = n := by
  decide

lemma b64char_ne_pad : ∀ n < 64, b64char n ≠ '=' := by
  decide

lemma mod64_lt (v : Nat) : v % 64 < 64 := Nat.mod_lt _ (by norm_num)

/-- One full 3-byte group decodes back to its bytes. -/
lemma decode_chunk (a b c : Nat) (ha : a < 256) (hb : b < 256) (hc : c < 256) :
    let value := a * 65536 + b * 256 + c
    b64table.indexOf (b64char (value / 262144 % 64)) * 4 +
        b64table.indexOf (b64char (value / 4096 % 64)) / 16 = a ∧
      b64table.indexOf (b64char (value / 4096 % 64)) % 16 * 16 +
        b64table.indexOf (b64char (value / 64 % 64)) / 4 = b ∧
      b64table.indexOf (b64char (value / 64 % 64)) % 4 * 64 +
        b64table.indexOf (b64char (value % 64)) = c := by
  intro value
  rw [b64table_indexOf_b64char _ (mod64_lt _), b64table_indexOf_b64char _ (mod64_lt _),
    b64table_indexOf_b64char _ (mod64_lt _), b64table_indexOf_b64char _ (mod64_lt _)]
  show value / 262144 % 64 * 4 + value / 4096 % 64 / 16 = a ∧
    value / 4096 % 64 % 16 * 16 + value / 64 % 64 / 4 = b ∧
    value / 64 % 64 % 4 * 64 + value % 64 = c
  omega

theorem rfc4648Decode_encode (l : List Nat) (h : ∀ x ∈ l, x < 256) :
    rfc4648Decode (sc_figma_bridge_base64_encode l) = l := by
  induction l using sc_figma_bridge_base64_encode.induct with
  | case1 a b c rest ih =>
    have ha : a < 256 := h a (by simp)
    have hb : b < 256 := h b (by simp)
    have hc : c < 256 := h c (by simp)
    have hrest : ∀ x ∈ rest, x < 256 := fun x hx => h x (by simp [hx])
    obtain ⟨e1, e2, e3⟩ := decode_chunk a b c ha hb hc
    rw [sc_figma_bridge_base64_encode, rfc4648Decode]
    rw [if_neg (b64char_ne_pad _ (mod64_lt _)), if_neg (b64char_ne_pad _ (mod64_lt _))]
    simp only [e1, e2, e3, ih hrest]
  | case2 a b =>
    have ha : a < 256 := h a (by simp)
    have hb : b < 256 := h b (by simp)
    rw [sc_figma_bridge_base64_encode, rfc4648Decode]
    rw [if_neg (b64char_ne_pad _ (mod64_lt _)), if_pos rfl]
    rw [b64table_indexOf_b64char _ (mod64_lt _), b64table_indexOf_b64char _ (mod64_lt _),
      b64table_indexOf_b64char _ (mod64_lt _)]
    show [(a * 65536 + b * 256) / 262144 % 64 * 4 + (a * 65536 + b * 256) / 4096 % 64 / 16,
        (a * 65536 + b * 256) / 4096 % 64 % 16 * 16 + (a * 65536 + b * 256) / 64 % 64 / 4] = [a, b]
    have : (a * 65536 + b * 256) / 262144 % 64 * 4 + (a * 65536 + b * 256) / 4096 % 64 / 16 = a ∧
        (a * 65536 + b * 256) / 4096 % 64 % 16 * 16 + (a * 65536 + b * 256) / 64 % 64 / 4 = b := by
      omega
    rw [this.1, this.2]
  | case3 a =>
    have ha : a < 256 := h a (by simp)
    rw [sc_figma_bridge_base64_encode, rfc4648Decode, if_pos rfl]
    rw [b64table_indexOf_b64char _ (mod64_lt _), b64table_indexOf_b64char _ (mod64_lt _)]
    show [a * 65536 / 262144 % 64 * 4 + a * 65536 / 4096 % 64 / 16] = [a]
    have : a * 65536 / 262144 % 64 * 4 + a * 65536 / 4096 % 64 / 16 = a := by omega
    rw [this]
  | case4 => rfl

theorem base64_encode_length (l : List Nat) :
    (sc_figma_bridge_base64_encode l).length = 4 * ((l.length + 2) / 3) := by
  induction l using sc_figma_bridge_base64_encode.induct with
  | case1 a b c rest ih =>
    rw [sc_figma_bridge_base64_encode]
    simp only [List.length_cons, ih]
    omega
  | case2 a b => simp [sc_figma_bridge_base64_encode]
  | case3 a => simp [sc_figma_bridge_base64_encode]
  | case4 => rfl

/-! ## Decimal-string lemmas -/

lemma digit_char_facts : ∀ m < 10,
    (Char.ofNat (48 + m)).isDigit = true ∧ (Char.ofNat (48 + m)).toNat = 48 + m ∧
      Char.ofNat (48 + m) ≠ '&' := by decide

lemma natRepr_ne_nil (n : Nat) : natRepr n ≠ [] := by
  rw [natRepr]; split <;> simp

lemma natRepr_all_digit (n : Nat) : ∀ c ∈ natRepr n, c.isDigit = true := by
  induction n using Nat.strong_induction_on with
  | _ n ih =>
    rw [natRepr]
    split
    · next h =>
      intro c hc
      simp only [List.mem_singleton] at hc
      subst hc
      exact (digit_char_facts n h).1
    · next h =>
      intro c hc
      rcases List.mem_append.mp hc with h1 | h2
      · exact ih (n / 10) (Nat.div_lt_self (by omega) (by omega)) c h1
      · simp only [List.mem_singleton] at h2
        subst h2
        exact (digit_char_facts (n % 10) (Nat.mod_lt _ (by omega))).1

lemma digitsVal_append_singleton (v : List Char) (c : Char) :
    digitsVal (v ++ [c]) = digitsVal v * 10 + (c.toNat - 48) := by
  simp [digitsVal, List.foldl_append]

lemma digitsVal_natRepr (n : Nat) : digitsVal (natRepr n) = n := by
  induction n using Nat.strong_induction_on with
  | _ n ih =>
    rw [natRepr]
    split
    · next h =>
      have ht := (digit_char_facts n h).2.1
      simp [digitsVal, ht]
    · next h =>
      rw [digitsVal_append_singleton, ih (n / 10) (Nat.div_lt_self (by omega) (by omega))]
      rw [(digit_char_facts (n % 10) (Nat.mod_lt _ (by omega))).2.1]
      omega

lemma natRepr_length_le : ∀ n k : Nat, 1 ≤ k → n < 10 ^ k → (natRepr n).length ≤ k := by
  intro n
  induction n using Nat.strong_induction_on with
  | _ n ih =>
    intro k hk h
    rw [natRepr]
    split
    · next => simpa using hk
    · next hge =>
      have h10 : 10 ≤ n := by omega
      have hk2 : 2 ≤ k := by
        by_contra hlt
        have hk1 : k = 1 := by omega
        subst hk1
        simp at h
        omega
      have hpow : 10 ^ k = 10 ^ (k - 1) * 10 := by
        conv_lhs => rw [show k = k - 1 + 1 by omega]
        rw [pow_succ]
      have hdiv : n / 10 < 10 ^ (k - 1) := by omega
      have hlen := ih (n / 10) (Nat.div_lt_self (by omega) (by omega)) (k - 1) (by omega) hdiv
      simp only [List.length_append, List.length_singleton]
      omega

/-! ## Tokenizer and parse-query lemmas -/

lemma splitAmp_no_sep (cs : List Char) (h : '&' ∉ cs) : splitAmp cs = [cs] := by
  induction cs with
  | nil => rfl
  | cons c rest ih =>
    rw [splitAmp, if_neg (by rintro rfl; exact h (by simp))]
    rw [ih fun hm => h (by simp [hm])]
    rfl

lemma scanTokens_no_after (ts : List (List Char))
    (h : ∀ t ∈ ts, t.take 6 ≠ "after=".data) : scanTokens ts = some 0 := by
  induction ts with
  | nil => rfl
  | cons t rest ih =>
    rw [scanTokens, if_neg fun hc => h t (by simp) hc.2]
    exact ih fun u hu => h u (by simp [hu])

lemma parse_no_after (cs : List Char) (h : hasAfterToken cs = false) :
    sc_figma_bridge_parse_after_query (some cs) = some 0 := by
  rw [sc_figma_bridge_parse_after_query]
  by_cases hcs : cs = []
  · simp [hcs]
  · rw [if_neg hcs]
    apply scanTokens_no_after
    intro t ht hc
    have hany : (splitAmp cs).any (fun t => decide (t.take 6 = "after=".data)) = true :=
      List.any_eq_true.mpr ⟨t, ht, by simp [hc]⟩
    exact absurd hany (by simpa [hasAfterToken] using h)

lemma parse_single_after (v : List Char) (hv : v ≠ []) (hamp : '&' ∉ v) :
    sc_figma_bridge_parse_after_query (some ("after=".data ++ v)) =
      if v.all Char.isDigit = true ∧ v.length < 32 then
        some (min (digitsVal v) (2 ^ 64 - 1))
      else none := by
  have hamp2 : '&' ∉ "after=".data ++ v := by
    intro hm
    rcases List.mem_append.mp hm with h1 | h2
    · exact absurd h1 (by decide)
    · exact hamp h2
  have hlen6 : ("after=".data).length = 6 := by decide
  have htake : ("after=".data ++ v).take 6 = "after=".data := by
    conv_lhs => rw [← hlen6]
    exact List.take_left _ _
  have hdrop : ("after=".data ++ v).drop 6 = v := by
    conv_lhs => rw [← hlen6]
    exact List.drop_left _ _
  have hpos : 0 < v.length := List.length_pos.mpr hv
  have hgt : 6 < ("after=".data ++ v).length := by
    simp only [List.length_append, hlen6]
    omega
  rw [sc_figma_bridge_parse_after_query, if_neg (by simp), splitAmp_no_sep _ hamp2,
    scanTokens, if_pos ⟨hgt, htake⟩]
  simp only [hdrop]

lemma parse_after_num (n : Nat) (hn : n < 2 ^ 64) :
    sc_figma_bridge_parse_after_query (some ("after=".data ++ natRepr n)) = some n := by
  have hamp : '&' ∉ natRepr n := by
    intro hm
    have := natRepr_all_digit n _ hm
    exact absurd this (by decide)
  rw [parse_single_after _ (natRepr_ne_nil n) hamp]
  have hdig : (natRepr n).all Char.isDigit = true :=
    List.all_eq_true.mpr fun c hc => natRepr_all_digit n c hc
  have hle : (natRepr n).length ≤ 20 :=
    natRepr_length_le n 20 (by omega) (lt_trans hn (by norm_num))
  rw [if_pos ⟨hdig, by omega⟩, digitsVal_natRepr]
  congr 1
  omega

lemma parse_eq_scan (cs : List Char) :
    sc_figma_bridge_parse_after_query (some cs) = scanTokens (splitAmp cs) := by
  by_cases hcs : cs = []
  · subst hcs; rfl
  · rw [sc_figma_bridge_parse_after_query, if_neg hcs]

lemma afterTokenValue_cons (t : List Char) (ts : List (List Char)) :
    afterTokenValue (t :: ts) =
      if 6 < t.length ∧ t.take 6 = "after=".data then some (t.drop 6)
      else afterTokenValue ts := by
  by_cases hc : 6 < t.length ∧ t.take 6 = "after=".data
  · rw [if_pos hc, afterTokenValue,
      List.find?_cons_of_pos _ (by simp [hc.1, hc.2])]
    rfl
  · rw [if_neg hc, afterTokenValue,
      List.find?_cons_of_neg _ (by simpa using fun h1 h2 => hc ⟨h1, h2⟩)]
    rfl

lemma scanTokens_eq_none_iff (ts : List (List Char)) :
    scanTokens ts = none ↔
      ∃ v, afterTokenValue ts = some v ∧
        ¬(v.all Char.isDigit = true ∧ v.length < 32) := by
  induction ts with
  | nil => simp [scanTokens, afterTokenValue]
  | cons t rest ih =>
    rw [scanTokens, afterTokenValue_cons]
    by_cases hc : 6 < t.length ∧ t.take 6 = "after=".data
    · rw [if_pos hc, if_pos hc]
      by_cases hg : (t.drop 6).all Char.isDigit = true ∧ (t.drop 6).length < 32
      · rw [if_pos hg]
        constructor
        · intro hcontra; exact absurd hcontra (by simp)
        · rintro ⟨v, hv, hbad⟩
          obtain rfl : List.drop 6 t = v := by injection hv
          exact absurd hg hbad
      · rw [if_neg hg]
        constructor
        · intro _; exact ⟨t.drop 6, rfl, hg⟩
        · intro _; rfl
    · rw [if_neg hc, if_neg hc]
      exact ih

lemma scanTokens_of_good (ts : List (List Char)) (v : List Char)
    (hv : afterTokenValue ts = some v) (h1 : v.all Char.isDigit = true)
    (h2 : v.length < 32) :
    scanTokens ts = some (min (digitsVal v) (2 ^ 64 - 1)) := by
  induction ts with
  | nil => simp [afterTokenValue] at hv
  | cons t rest ih =>
    rw [afterTokenValue_cons] at hv
    rw [scanTokens]
    by_cases hc : 6 < t.length ∧ t.take 6 = "after=".data
    · rw [if_pos hc] at hv
      rw [if_pos hc]
      obtain rfl : t.drop 6 = v := by injection hv
      rw [if_pos ⟨h1, h2⟩]
    · rw [if_neg hc] at hv
      rw [if_neg hc]
      exact ih hv

lemma respond_code_eq_400_iff (sOk bOk cOk : Bool) (br : Bridge)
    (q : Option (List Char)) :
    (sc_figma_bridge_respond_latest sOk bOk cOk br q).code = 400 ↔
      sc_figma_bridge_parse_after_query q = none := by
  rw [sc_figma_bridge_respond_latest]
  rcases hp : sc_figma_bridge_parse_after_query q with _ | a
  · simp
  · rcases hs : sc_figma_bridge_snapshot_newer_than sOk br a with _ | snap
    · simp [hs]
    · simp only [hs]
      split_ifs <;> simp

/-! ## Claim C4 -/

/-- C4: after a successful `publish_png` whose resulting sequence is
`S = br.sequence + 1`, a `/latest` request with `after=S-1` answers 200 with
the JSON of that snapshot, `after=S` answers 204, and `after=abc` answers 400
(hypotheses: the published buffer is non-empty as the asserts require, the
64-bit sequence does not wrap, and the response-path allocations succeed). -/
theorem bridge_latest_after_publish (br : Bridge) (data : List Nat) (w h : Nat)
    (hdata : data ≠ []) (hseq : br.sequence + 1 < 2 ^ 64) :
    (sc_figma_bridge_publish_png true br data w h).1 = true ∧
    (sc_figma_bridge_publish_png true br data w h).2.sequence = br.sequence + 1 ∧
    sc_figma_bridge_respond_latest true true true
        (sc_figma_bridge_publish_png true br data w h).2
        (some ("after=".data ++ natRepr (br.sequence + 1 - 1))) =
      { code := 200,
        body := jsonBody (br.sequence + 1) w h
          (sc_figma_bridge_base64_encode data) } ∧
    sc_figma_bridge_respond_latest true true true
        (sc_figma_bridge_publish_png true br data w h).2
        (some ("after=".data ++ natRepr (br.sequence + 1))) =
      { code := 204, body := [] } ∧
    sc_figma_bridge_respond_latest true true true
        (sc_figma_bridge_publish_png true br data w h).2
        (some "after=abc".data) =
      { code := 400, body := "Invalid query\n".data } := by
  have hmod : (br.sequence + 1) % 2 ^ 64 = br.sequence + 1 := Nat.mod_eq_of_lt hseq
  have hbr2 : (sc_figma_bridge_publish_png true br data w h).2 =
      { br with png := data, width := w, height := h,
                sequence := br.sequence + 1 } := by
    simp [sc_figma_bridge_publish_png, hmod]
    omega
  refine ⟨by simp [sc_figma_bridge_publish_png], by rw [hbr2], ?_, ?_, ?_⟩
  · have hp := parse_after_num br.sequence (by omega)
    rw [show br.sequence + 1 - 1 = br.sequence from rfl, hbr2,
      sc_figma_bridge_respond_latest, hp]
    simp [sc_figma_bridge_snapshot_newer_than, hdata, Nat.lt_succ_self]
  · have hp := parse_after_num (br.sequence + 1) hseq
    rw [hbr2, sc_figma_bridge_respond_latest, hp]
    simp [sc_figma_bridge_snapshot_newer_than]
  · have habc : "after=abc".data = "after=".data ++ "abc".data := by decide
    have hp := parse_single_after "abc".data (by decide) (by decide)
    rw [if_neg (by decide)] at hp
    rw [hbr2, sc_figma_bridge_respond_latest, habc, hp]

/-- Witness for C4: a concrete publish on the freshly initialized bridge. -/
theorem bridge_latest_after_publish_witness :
    ([(5 : Nat)] ≠ [] ∧ bridgeInit.sequence + 1 < 2 ^ 64) ∧
    sc_figma_bridge_respond_latest true true true
        (sc_figma_bridge_publish_png true bridgeInit [5] 2 3).2
        (some ("after=".data ++ natRepr (bridgeInit.sequence + 1 - 1))) =
      { code := 200,
        body := jsonBody (bridgeInit.sequence + 1) 2 3
          (sc_figma_bridge_base64_encode [5]) } :=
  ⟨⟨by decide, by norm_num [bridgeInit]⟩,
    (bridge_latest_after_publish bridgeInit [5] 2 3 (by decide)
      (by norm_num [bridgeInit])).2.2.1⟩

/-! ## Claim C5 (corrected) -/

/-- C5 counterexample: the value `00000000000000000000000000000000`
(32 zeros) is a non-empty string of decimal digits — well-formed in the
claim's sense — yet the request is answered 400, because the scanner rejects
values of 32 or more digits (`value_len >= sizeof(tmp)`). -/
theorem parse_after_query_32digits_rejected :
    (List.replicate 32 '0').all Char.isDigit = true ∧
    List.replicate 32 '0' ≠ [] ∧
    sc_figma_bridge_parse_after_query
        (some ("after=".data ++ List.replicate 32 '0')) = none ∧
    sc_figma_bridge_respond_latest true true true bridgeInit
        (some ("after=".data ++ List.replicate 32 '0')) =
      { code := 400, body := "Invalid query\n".data } :=
  ⟨by decide, by decide, by decide, by decide⟩

/-- C5 amended: a request with a query is answered 400 if and only if the
first `after=` token with a non-empty value has a value that is not a string
of at most 31 decimal digits; every value of 1 to 31 decimal digits is
accepted and parsed as its integer value saturated at `2^64 - 1` (the
`strtoull` overflow behaviour); an `after=` token with an empty value is
skipped rather than rejected. -/
theorem respond_latest_400_characterization (snapOk b64Ok bodyOk : Bool)
    (br : Bridge) (cs : List Char) :
    ((sc_figma_bridge_respond_latest snapOk b64Ok bodyOk br (some cs)).code = 400 ↔
      ∃ v, firstAfterValue cs = some v ∧
        ¬(v.all Char.isDigit = true ∧ v.length < 32)) ∧
    (∀ v, firstAfterValue cs = some v → v.all Char.isDigit = true →
      v.length < 32 →
      sc_figma_bridge_parse_after_query (some cs) =
        some (min (digitsVal v) (2 ^ 64 - 1))) := by
  constructor
  · rw [respond_code_eq_400_iff, parse_eq_scan, scanTokens_eq_none_iff]
    rfl
  · intro v hv h1 h2
    rw [parse_eq_scan]
    exact scanTokens_of_good _ v hv h1 h2

/-- Witness for C5 amended: `after=12` parses to 12. -/
theorem respond_latest_400_characterization_witness :
    firstAfterValue "after=12".data = some ['1', '2'] ∧
    sc_figma_bridge_parse_after_query (some "after=12".data) =
      some (min (digitsVal ['1', '2']) (2 ^ 64 - 1)) :=
  ⟨by decide,
    (respond_latest_400_characterization true true true bridgeInit
        "after=12".data).2 ['1', '2'] (by decide) (by decide) (by decide)⟩

/-! ## Claim C6 -/

/-- C6: the bridge's base64 encoder is the standard RFC 4648 encoding —
decoding its output reproduces the input byte buffer byte for byte, and the
output is `4 * ceil(len / 3)` characters (with `=` padding produced by the
remainder cases). -/
theorem base64_roundtrip (data : List Nat) (h : ∀ x ∈ data, x < 256) :
    rfc4648Decode (sc_figma_bridge_base64_encode data) = data ∧
    (sc_figma_bridge_base64_encode data).length = 4 * ((data.length + 2) / 3) :=
  ⟨rfc4648Decode_encode data h, base64_encode_length data⟩

/-- Witness for C6: a concrete 4-byte buffer (one full group plus a padded
remainder). -/
theorem base64_roundtrip_witness :
    (∀ x ∈ [137, 80, 78, 71], x < 256) ∧
    rfc4648Decode (sc_figma_bridge_base64_encode [137, 80, 78, 71]) =
      [137, 80, 78, 71] :=
  ⟨by decide, (base64_roundtrip [137, 80, 78, 71] (by decide)).1⟩

/-! ## Claim C8 -/

/-- C8: an allocation failure inside `publish_png` makes the call return
false and leaves the bridge state unchanged — the sequence is not
incremented and any previously stored snapshot is still served identically
to `/latest` requests. -/
theorem publish_png_oom_no_change (br : Bridge) (data : List Nat) (w h : Nat)
    (hdata : data ≠ []) :
    sc_figma_bridge_publish_png false br data w h = (false, br) ∧
    ∀ sOk bOk cOk q,
      sc_figma_bridge_respond_latest sOk bOk cOk
          (sc_figma_bridge_publish_png false br data w h).2 q =
        sc_figma_bridge_respond_latest sOk bOk cOk br q := by
  exact ⟨rfl, fun _ _ _ _ => rfl⟩

/-- Witness for C8: a failed publish on a bridge already holding a
snapshot. -/
theorem publish_png_oom_no_change_witness :
    ([(9 : Nat)] ≠ []) ∧
    sc_figma_bridge_publish_png false
        { sequence := 3, png := [1, 2], width := 4, height := 5,
          running := true } [9] 7 7 =
      (false, { sequence := 3, png := [1, 2], width := 4, height := 5,
                running := true }) :=
  ⟨by decide,
    (publish_png_oom_no_change
        { sequence := 3, png := [1, 2], width := 4, height := 5,
          running := true } [9] 7 7 (by decide)).1⟩

/-! ## Bridge-trace lemmas -/

lemma bridgeApply_publish_true (br : Bridge) (d : List Nat) (w h : Nat) :
    bridgeApply br (.publish true d w h) =
      { br with png := d, width := w, height := h,
                sequence := (br.sequence + 1) % 2 ^ 64 } := by
  simp [bridgeApply, sc_figma_bridge_publish_png]

lemma bridgeApply_sequence_nonpub (br : Bridge) (op : BridgeOp)
    (h : ∀ d w hh, op ≠ .publish true d w hh) :
    (bridgeApply br op).sequence = br.sequence := by
  cases op with
  | publish allocOk d w hh =>
    cases allocOk
    · simp [bridgeApply, sc_figma_bridge_publish_png]
    · exact absurd rfl (h d w hh)
  | start tok => cases tok <;> simp [bridgeApply]
  | stop => rfl
  | clear => rfl
  | respond a => rfl

lemma pubCount_cons_pub (d : List Nat) (w h : Nat) (rest : List BridgeOp) :
    pubCount (.publish true d w h :: rest) = pubCount rest + 1 := by
  simp [pubCount, List.countP_cons]

lemma pubCount_cons_nonpub (op : BridgeOp) (rest : List BridgeOp)
    (h : ∀ d w hh, op ≠ .publish true d w hh) :
    pubCount (op :: rest) = pubCount rest := by
  cases op with
  | publish allocOk d w hh =>
    cases allocOk
    · simp [pubCount, List.countP_cons]
    · exact absurd rfl (h d w hh)
  | start tok => simp [pubCount, List.countP_cons]
  | stop => simp [pubCount, List.countP_cons]
  | clear => simp [pubCount, List.countP_cons]
  | respond a => simp [pubCount, List.countP_cons]

lemma bridgeRun_sequence : ∀ (ops : List BridgeOp) (br : Bridge),
    br.sequence + pubCount ops < 2 ^ 64 →
    (bridgeRun br ops).sequence = br.sequence + pubCount ops := by
  intro ops
  induction ops with
  | nil => intro br _; simp [bridgeRun, pubCount]
  | cons op rest ih =>
    intro br h
    have hrun : bridgeRun br (op :: rest) = bridgeRun (bridgeApply br op) rest := rfl
    by_cases hpub : ∃ d w hh, op = BridgeOp.publish true d w hh
    · obtain ⟨d, w, hh, rfl⟩ := hpub
      rw [pubCount_cons_pub] at h
      have hmod : (br.sequence + 1) % 2 ^ 64 = br.sequence + 1 :=
        Nat.mod_eq_of_lt (by omega)
      rw [hrun, bridgeApply_publish_true,
        ih _ (by simp only [hmod]; omega)]
      rw [pubCount_cons_pub]
      simp only [hmod]
      omega
    · push_neg at hpub
      have hseq := bridgeApply_sequence_nonpub br op hpub
      rw [hrun, ih _ (by rw [hseq, ← pubCount_cons_nonpub op rest hpub]; omega),
        hseq, pubCount_cons_nonpub op rest hpub]

lemma publishedSeqs_pos : ∀ (ops : List BridgeOp) (br : Bridge),
    br.sequence + pubCount ops < 2 ^ 64 →
    (∀ x ∈ publishedSeqs br ops, br.sequence < x) ∧
    List.Chain' (fun a b => a < b) (publishedSeqs br ops) := by
  intro ops
  induction ops with
  | nil => intro br _; simp [publishedSeqs]
  | cons op rest ih =>
    intro br h
    by_cases hpub : ∃ d w hh, op = BridgeOp.publish true d w hh
    · obtain ⟨d, w, hh, rfl⟩ := hpub
      rw [pubCount_cons_pub] at h
      have hmod : (br.sequence + 1) % 2 ^ 64 = br.sequence + 1 :=
        Nat.mod_eq_of_lt (by omega)
      have hps : publishedSeqs br (BridgeOp.publish true d w hh :: rest) =
          (br.sequence + 1) % 2 ^ 64 ::
            publishedSeqs (bridgeApply br (.publish true d w hh)) rest := rfl
      have happly := bridgeApply_publish_true br d w hh
      have hihargs : (bridgeApply br (.publish true d w hh)).sequence +
          pubCount rest < 2 ^ 64 := by
        rw [happly]
        simp only [hmod]
        omega
      obtain ⟨ihmem, ihchain⟩ := ih _ hihargs
      have hseq2 : (bridgeApply br (.publish true d w hh)).sequence =
          br.sequence + 1 := by rw [happly]; simpa using hmod
      constructor
      · intro x hx
        rw [hps] at hx
        rcases List.mem_cons.mp hx with rfl | hx2
        · omega
        · have := ihmem x hx2
          rw [hseq2] at this
          omega
      · rw [hps]
        refine List.chain'_cons'.mpr ⟨?_, ihchain⟩
        intro y hy
        have hmem := ihmem y (List.mem_of_mem_head? hy)
        rw [hseq2] at hmem
        omega
    · push_neg at hpub
      have hseq := bridgeApply_sequence_nonpub br op hpub
      have hps : publishedSeqs br (op :: rest) =
          publishedSeqs (bridgeApply br op) rest := by
        cases op with
        | publish allocOk d w hh =>
          cases allocOk
          · rfl
          · exact absurd rfl (hpub d w hh)
        | start tok => rfl
        | stop => rfl
        | clear => rfl
        | respond a => rfl
      rw [hps]
      have := ih (bridgeApply br op)
        (by rw [hseq, ← pubCount_cons_nonpub op rest hpub]; omega)
      rw [hseq] at this
      exact this

lemma goodOps_cons (op : BridgeOp) (rest : List BridgeOp) :
    goodOps (op :: rest) = true ↔
      ((match op with
        | .publish _ data _ _ => !data.isEmpty
        | .clear => false
        | _ => true) = true ∧ goodOps rest = true) := by
  simp [goodOps, List.all_cons]

lemma bridgeRun_png : ∀ (ops : List BridgeOp) (br : Bridge),
    goodOps ops = true →
    (pubCount ops = 0 → (bridgeRun br ops).png = br.png) ∧
    (0 < pubCount ops → (bridgeRun br ops).png ≠ []) := by
  intro ops
  induction ops with
  | nil => intro br _; simp [bridgeRun, pubCount]
  | cons op rest ih =>
    intro br hg
    obtain ⟨hop, hrest⟩ := (goodOps_cons op rest).mp hg
    have hrun : bridgeRun br (op :: rest) = bridgeRun (bridgeApply br op) rest := rfl
    cases op with
    | publish allocOk d w hh =>
      cases allocOk
      · have happ : bridgeApply br (.publish false d w hh) = br := rfl
        have hc := pubCount_cons_nonpub (.publish false d w hh) rest
          (by intro _ _ _ hcon; exact absurd hcon (by simp))
        rw [hrun, happ, hc]
        exact ih br hrest
      · have hd : d ≠ [] := by
          simpa [List.isEmpty_iff] using hop
        rw [hrun, bridgeApply_publish_true, pubCount_cons_pub]
        obtain ⟨ih0, ihpos⟩ := ih
          { br with png := d, width := w, height := hh,
                    sequence := (br.sequence + 1) % 2 ^ 64 } hrest
        constructor
        · omega
        · intro _
          by_cases hz : pubCount rest = 0
          · rw [ih0 hz]; exact hd
          · exact ihpos (by omega)
    | start tok =>
      have hpng : (bridgeApply br (.start tok)).png = br.png := by
        cases tok <;> rfl
      have hc := pubCount_cons_nonpub (.start tok) rest (by intro _ _ _ h; simp at h)
      rw [hrun, hc]
      obtain ⟨ih0, ihpos⟩ := ih (bridgeApply br (.start tok)) hrest
      exact ⟨fun h0 => by rw [ih0 h0, hpng], ihpos⟩
    | stop =>
      have hc := pubCount_cons_nonpub .stop rest (by intro _ _ _ h; simp at h)
      rw [hrun, hc]
      obtain ⟨ih0, ihpos⟩ := ih (bridgeApply br .stop) hrest
      exact ⟨fun h0 => by rw [ih0 h0]; rfl, ihpos⟩
    | clear => simp at hop
    | respond a =>
      have hc := pubCount_cons_nonpub (.respond a) rest (by intro _ _ _ h; simp at h)
      rw [hrun, hc]
      obtain ⟨ih0, ihpos⟩ := ih (bridgeApply br (.respond a)) hrest
      exact ⟨fun h0 => by rw [ih0 h0]; rfl, ihpos⟩

/-! ## Claim C7 -/

/-- C7: a successful `publish_png` increments the 64-bit sequence by exactly
one, no other bridge operation changes it, and over any trace of operations
the sequence numbers attached to published snapshots are strictly increasing
(as long as the 64-bit counter does not wrap). -/
theorem publish_sequence_strictly_increasing (br : Bridge)
    (ops : List BridgeOp) (h : br.sequence + pubCount ops < 2 ^ 64) :
    (bridgeRun br ops).sequence = br.sequence + pubCount ops ∧
    List.Chain' (fun a b => a < b) (publishedSeqs br ops) ∧
    (∀ d w hh, (bridgeApply br (.publish true d w hh)).sequence =
      (br.sequence + 1) % 2 ^ 64) ∧
    (∀ op, (∀ d w hh, op ≠ .publish true d w hh) →
      (bridgeApply br op).sequence = br.sequence) :=
  ⟨bridgeRun_sequence ops br h, (publishedSeqs_pos ops br h).2,
    fun d w hh => by rw [bridgeApply_publish_true],
    fun op hop => bridgeApply_sequence_nonpub br op hop⟩

/-- Witness for C7: two successful publishes from the initial state. -/
theorem publish_sequence_strictly_increasing_witness :
    (bridgeInit.sequence +
        pubCount [BridgeOp.publish true [1] 1 1,
          BridgeOp.publish true [2] 2 2] < 2 ^ 64) ∧
    (bridgeRun bridgeInit [BridgeOp.publish true [1] 1 1,
        BridgeOp.publish true [2] 2 2]).sequence =
      bridgeInit.sequence +
        pubCount [BridgeOp.publish true [1] 1 1,
          BridgeOp.publish true [2] 2 2] :=
  ⟨by decide,
    (publish_sequence_strictly_increasing bridgeInit
      [BridgeOp.publish true [1] 1 1, BridgeOp.publish true [2] 2 2]
      (by decide)).1⟩

/-! ## Claim C10 -/

/-- C10: a `/latest` request whose query is absent, empty, or free of any
`after=` token is treated exactly as `after=0`: it answers 200 with the
latest snapshot when at least one snapshot has been published, and 204
otherwise (assuming the traced publishes respect the asserts, no
wrap-around, and the response-path allocations succeed). -/
theorem latest_no_after_defaults_to_zero (ops : List BridgeOp)
    (hops : goodOps ops = true) (hcount : pubCount ops < 2 ^ 64)
    (q : Option (List Char))
    (hq : q = none ∨ q = some [] ∨
      ∃ cs, q = some cs ∧ hasAfterToken cs = false) :
    (0 < pubCount ops →
      sc_figma_bridge_respond_latest true true true (bridgeRun bridgeInit ops)
          q =
        { code := 200,
          body := jsonBody (bridgeRun bridgeInit ops).sequence
            (bridgeRun bridgeInit ops).width (bridgeRun bridgeInit ops).height
            (sc_figma_bridge_base64_encode (bridgeRun bridgeInit ops).png) }) ∧
    (pubCount ops = 0 →
      sc_figma_bridge_respond_latest true true true (bridgeRun bridgeInit ops)
          q = { code := 204, body := [] }) := by
  have hparse : sc_figma_bridge_parse_after_query q = some 0 := by
    rcases hq with rfl | rfl | ⟨cs, rfl, hna⟩
    · rfl
    · rfl
    · exact parse_no_after cs hna
  have hseq : (bridgeRun bridgeInit ops).sequence = pubCount ops := by
    have := bridgeRun_sequence ops bridgeInit (by simp [bridgeInit]; omega)
    simpa [bridgeInit] using this
  obtain ⟨hpng0, hpngpos⟩ := bridgeRun_png ops bridgeInit hops
  constructor
  · intro hpos
    rw [sc_figma_bridge_respond_latest]
    simp only [hparse]
    rw [sc_figma_bridge_snapshot_newer_than,
      if_pos ⟨by omega, hpngpos hpos⟩]
    rfl
  · intro h0
    rw [sc_figma_bridge_respond_latest]
    simp only [hparse]
    rw [sc_figma_bridge_snapshot_newer_than, if_neg (by rw [hseq, h0]; simp)]

/-- Witness for C10: one publish, then a query with only unrelated tokens. -/
theorem latest_no_after_defaults_to_zero_witness :
    (goodOps [BridgeOp.publish true [7] 1 1] = true ∧
      pubCount [BridgeOp.publish true [7] 1 1] < 2 ^ 64 ∧
      hasAfterToken "x=1".data = false) ∧
    sc_figma_bridge_respond_latest true true true
        (bridgeRun bridgeInit [BridgeOp.publish true [7] 1 1])
        (some "x=1".data) =
      { code := 200,
        body := jsonBody
          (bridgeRun bridgeInit [BridgeOp.publish true [7] 1 1]).sequence
          (bridgeRun bridgeInit [BridgeOp.publish true [7] 1 1]).width
          (bridgeRun bridgeInit [BridgeOp.publish true [7] 1 1]).height
          (sc_figma_bridge_base64_encode
            (bridgeRun bridgeInit [BridgeOp.publish true [7] 1 1]).png) } :=
  ⟨⟨by decide, by decide, by decide⟩,
    (latest_no_after_defaults_to_zero [BridgeOp.publish true [7] 1 1]
      (by decide) (by decide) (some "x=1".data)
      (Or.inr (Or.inr ⟨"x=1".data, rfl, by decide⟩))).1 (by decide)⟩

/-! ## Retry-loop lemmas (claim C1) -/

lemma wait_retry_delay_quit (hasScreen : Bool) (delay t : Nat)
    (ht : t < delay) :
    ∀ backoff : List (Nat × BackoffEvent),
      backoff.Pairwise (fun a b => a.1 ≤ b.1) →
      (t, BackoffEvent.quit) ∈ backoff →
      wait_retry_delay hasScreen delay backoff = false := by
  intro backoff
  induction backoff with
  | nil => intro _ hmem; simp at hmem
  | cons hd rest ih =>
    intro hsorted hmem
    obtain ⟨t0, e0⟩ := hd
    have hle : ∀ b ∈ rest, t0 ≤ b.1 := (List.pairwise_cons.mp hsorted).1
    have hrest := (List.pairwise_cons.mp hsorted).2
    rcases List.mem_cons.mp hmem with heq | hmem2
    · cases heq.symm
      show (if delay ≤ t then true else false) = false
      rw [if_neg (by omega)]
    · have ht0t : t0 ≤ t := hle (t, .quit) hmem2
      cases e0 with
      | quit =>
        show (if delay ≤ t0 then true else false) = false
        rw [if_neg (by omega)]
      | runnable =>
        show (if delay ≤ t0 then true
              else wait_retry_delay hasScreen delay rest) = false
        rw [if_neg (by omega)]
        exact ih hrest hmem2
      | screenEvent ok =>
        show (if delay ≤ t0 then true
              else if hasScreen && !ok then false
              else wait_retry_delay hasScreen delay rest) = false
        rw [if_neg (by omega)]
        by_cases hs : (hasScreen && !ok) = true
        · rw [if_pos hs]
        · rw [if_neg hs]
          exact ih hrest hmem2

/-- C1: after a session's event loop returns `ret`, the orchestrator starts a
fresh session iff `ret` is the disconnection status, a display window was
initialized, and the fixed 1000 ms backoff ran to completion; a user-quit
event arriving during the backoff makes `scrcpy()` return success; and any
non-disconnection exit reason makes the loop exit with `ret` itself. -/
theorem retry_decision (ret : ExitCode) (screenInit : Bool)
    (backoff : List (Nat × BackoffEvent)) :
    (afterEventLoop ret screenInit backoff = .retryNew ↔
      (ret = .disconnected ∧ screenInit = true ∧
        wait_retry_delay screenInit 1000 backoff = true)) ∧
    (ret = .disconnected → screenInit = true →
      backoff.Pairwise (fun a b => a.1 ≤ b.1) →
      ∀ t, (t, BackoffEvent.quit) ∈ backoff → t < 1000 →
        afterEventLoop ret screenInit backoff = .exitWith .success) ∧
    (ret ≠ .disconnected →
      afterEventLoop ret screenInit backoff = .exitWith ret) ∧
    (screenInit = false →
      afterEventLoop ret screenInit backoff = .exitWith ret) := by
  by_cases hr : ret = ExitCode.disconnected
  · subst hr
    by_cases hs : screenInit = true
    · subst hs
      cases hw : wait_retry_delay true 1000 backoff
      · refine ⟨?_, ?_, ?_, ?_⟩
        · simp [afterEventLoop, hw]
        · intro _ _ hsorted t hmem ht
          simp [afterEventLoop, hw]
        · intro hcon; exact absurd rfl hcon
        · intro hcon; simp at hcon
      · refine ⟨?_, ?_, ?_, ?_⟩
        · simp [afterEventLoop, hw]
        · intro _ _ hsorted t hmem ht
          have hq := wait_retry_delay_quit true 1000 t ht backoff hsorted hmem
          rw [hq] at hw
          cases hw
        · intro hcon; exact absurd rfl hcon
        · intro hcon; simp at hcon
    · have hs2 : screenInit = false := by revert hs; cases screenInit <;> simp
      subst hs2
      refine ⟨?_, ?_, ?_, ?_⟩
      · simp [afterEventLoop]
      · intro _ hcon; simp at hcon
      · intro hcon; exact absurd rfl hcon
      · intro _; simp [afterEventLoop]
  · refine ⟨?_, ?_, ?_, ?_⟩
    · simp [afterEventLoop, hr]
    · intro hcon; exact absurd hcon hr
    · intro _; simp [afterEventLoop, hr]
    · intro hs0; simp [afterEventLoop, hr, hs0]

/-- Witness for C1: a non-disconnection exit reason leaves the loop with that
status. -/
theorem retry_decision_witness :
    (ExitCode.failure ≠ ExitCode.disconnected) ∧
    afterEventLoop .failure true [] = .exitWith .failure :=
  ⟨by decide, (retry_decision .failure true []).2.2.1 (by decide)⟩

/-! ## Claim C3 -/

/-- C3: audio failure is tolerated unless required — audio ending DISABLED
with `require_audio` posts the fatal demuxer-error event, DISABLED without it
posts nothing; an audio or video error always posts the demuxer-error event,
which ends the event loop with a failure status; EOS of either stream posts
the disconnection event instead. -/
theorem demuxer_failure_asymmetry :
    sc_audio_demuxer_on_ended .disabled true = some .demuxerError ∧
    sc_audio_demuxer_on_ended .disabled false = none ∧
    (∀ ra, sc_audio_demuxer_on_ended .error ra = some .demuxerError) ∧
    (∀ ra, sc_audio_demuxer_on_ended .eos ra = some .deviceDisconnected) ∧
    sc_video_demuxer_on_ended .error = some .demuxerError ∧
    sc_video_demuxer_on_ended .eos = some .deviceDisconnected ∧
    (∀ hasScreen rest,
      event_loop hasScreen (SEvent.demuxerError :: rest) = .failure) := by
  refine ⟨?_, ?_, fun ra => ?_, fun ra => ?_, ?_, ?_, fun hasScreen rest => ?_⟩ <;>
    rfl

/-! ## Secure-content monitor lemmas (claim C9) -/

lemma mon_reported_any : ∀ (polls : List (Option Bool)) (m : MonState),
    (monFold m polls).reported = (m.reported || polls.any Option.isSome) := by
  intro polls
  induction polls with
  | nil => intro m; simp [monFold]
  | cons p rest ih =>
    intro m
    have hfold : monFold m (p :: rest) =
        monFold (run_secure_content_monitor_step m p).1 rest := rfl
    rw [hfold, ih]
    cases p with
    | none => simp [run_secure_content_monitor_step]
    | some b =>
      by_cases hc : (!m.reported || b != m.last_bouncer_showing) = true
      · have hstep : run_secure_content_monitor_step m (some b) =
            ({ reported := true, last_bouncer_showing := b }, some b) := by
          rw [run_secure_content_monitor_step, if_pos hc]
        rw [hstep]
        simp
      · have hrep : m.reported = true := by
          revert hc; cases m.reported <;> simp
        have hstep : run_secure_content_monitor_step m (some b) = (m, none) := by
          rw [run_secure_content_monitor_step, if_neg hc]
        rw [hstep]
        simp [hrep]

lemma mon_events_last : ∀ (polls : List (Option Bool)) (m : MonState),
    ((monFold m polls).reported = false →
      monEvents m polls = [] ∧ monFold m polls = m) ∧
    ((monFold m polls).reported = true →
      (monEvents m polls).getLast? =
          some (monFold m polls).last_bouncer_showing ∨
        (monEvents m polls = [] ∧ monFold m polls = m)) := by
  intro polls
  induction polls with
  | nil => intro m; exact ⟨fun _ => ⟨rfl, rfl⟩, fun _ => Or.inr ⟨rfl, rfl⟩⟩
  | cons p rest ih =>
    intro m
    cases p with
    | none =>
      have hfold : monFold m (none :: rest) = monFold m rest := rfl
      have hev : monEvents m (none :: rest) = monEvents m rest := rfl
      rw [hfold, hev]
      exact ih m
    | some b =>
      by_cases hc : (!m.reported || b != m.last_bouncer_showing) = true
      · have hstep : run_secure_content_monitor_step m (some b) =
            ({ reported := true, last_bouncer_showing := b }, some b) := by
          rw [run_secure_content_monitor_step, if_pos hc]
        have hfold : monFold m (some b :: rest) =
            monFold { reported := true, last_bouncer_showing := b } rest := by
          show monFold (run_secure_content_monitor_step m (some b)).1 rest = _
          rw [hstep]
        have hev : monEvents m (some b :: rest) =
            b :: monEvents { reported := true, last_bouncer_showing := b } rest := by
          rw [monEvents, hstep]
        obtain ⟨ihf, iht⟩ := ih { reported := true, last_bouncer_showing := b }
        rw [hfold, hev]
        constructor
        · intro hrep
          obtain ⟨he, hf⟩ := ihf hrep
          rw [hf] at hrep
          simp at hrep
        · intro hrep
          left
          rcases iht hrep with hl | ⟨he, hf⟩
          · have hne : monEvents { reported := true, last_bouncer_showing := b }
                rest ≠ [] := by
              intro h0
              rw [h0] at hl
              simp at hl
            rw [List.getLast?_cons, hl]
            rfl
          · rw [he, hf]
            rfl
      · have hstep : run_secure_content_monitor_step m (some b) = (m, none) := by
          rw [run_secure_content_monitor_step, if_neg hc]
        have hfold : monFold m (some b :: rest) = monFold m rest := by
          show monFold (run_secure_content_monitor_step m (some b)).1 rest = _
          rw [hstep]
        have hev : monEvents m (some b :: rest) = monEvents m rest := by
          rw [monEvents, hstep]
        rw [hfold, hev]
        exact ih m

/-! ## Claim C9 -/

/-- C9: at any point of the poll loop (after any prefix of polls from the
freshly initialized monitor), the next poll posts a secure-content event iff
the lock-state query succeeded and either no poll had succeeded before (first
successful read) or the read boolean differs from the last reported value;
the posted event carries the read value; and a failed poll posts nothing and
leaves the monitor state unchanged (the loop simply continues). -/
theorem secure_monitor_event_iff (polls : List (Option Bool))
    (p : Option Bool) :
    ((run_secure_content_monitor_step (monFold monInit polls) p).2 ≠ none ↔
      ∃ b, p = some b ∧
        ((∀ q ∈ polls, q = none) ∨
          (monEvents monInit polls).getLast? ≠ some b)) ∧
    (∀ b, p = some b →
      (run_secure_content_monitor_step (monFold monInit polls) p).2 ≠ none →
      (run_secure_content_monitor_step (monFold monInit polls) p).2 = some b) ∧
    (∀ m, run_secure_content_monitor_step m none = (m, none)) := by
  have hrep : (monFold monInit polls).reported = polls.any Option.isSome := by
    rw [mon_reported_any]
    rfl
  have hallnone : (∀ q ∈ polls, q = none) ↔ polls.any Option.isSome = false := by
    constructor
    · intro h
      rw [List.any_eq_false]
      intro q hq
      rw [h q hq]
      simp
    · intro h q hq
      have h2 := List.any_eq_false.mp h q hq
      cases q
      · rfl
      · simp at h2
  have hlast : (monFold monInit polls).reported = true →
      (monEvents monInit polls).getLast? =
        some (monFold monInit polls).last_bouncer_showing := by
    intro h
    rcases (mon_events_last polls monInit).2 h with hl | ⟨_, hf⟩
    · exact hl
    · rw [hf] at h
      simp [monInit] at h
  refine ⟨?_, ?_, fun m => rfl⟩
  · cases p with
    | none =>
      constructor
      · intro hcon
        exact absurd rfl hcon
      · rintro ⟨b, hb, _⟩
        cases hb
    | some b =>
      by_cases hc : (!(monFold monInit polls).reported ||
          b != (monFold monInit polls).last_bouncer_showing) = true
      · have hstep : (run_secure_content_monitor_step
            (monFold monInit polls) (some b)).2 = some b := by
          rw [run_secure_content_monitor_step, if_pos hc]
        rw [hstep]
        constructor
        · intro _
          refine ⟨b, rfl, ?_⟩
          rcases Bool.or_eq_true_iff.mp hc with hnr | hne
          · left
            rw [hallnone, ← hrep]
            revert hnr
            cases (monFold monInit polls).reported <;> simp
          · right
            cases hr2 : (monFold monInit polls).reported
            · obtain ⟨he, _⟩ := (mon_events_last polls monInit).1 hr2
              rw [he]
              simp
            · rw [hlast hr2]
              intro hcon
              have hbe : (monFold monInit polls).last_bouncer_showing = b := by
                injection hcon
              rw [hbe] at hne
              simp at hne
        · intro _
          simp
      · have hstep : (run_secure_content_monitor_step
            (monFold monInit polls) (some b)).2 = none := by
          rw [run_secure_content_monitor_step, if_neg hc]
        rw [hstep]
        have hrept : (monFold monInit polls).reported = true := by
          cases hr2 : (monFold monInit polls).reported
          · exfalso
            apply hc
            rw [hr2]
            rfl
          · rfl
        have hbeq : b = (monFold monInit polls).last_bouncer_showing := by
          have hb2 : (b != (monFold monInit polls).last_bouncer_showing) = false := by
            cases hb3 : (b != (monFold monInit polls).last_bouncer_showing)
            · rfl
            · exfalso
              apply hc
              rw [hrept, hb3]
              simp
          revert hb2
          cases b <;> cases (monFold monInit polls).last_bouncer_showing <;> simp
        constructor
        · intro hcon
          exact absurd rfl hcon
        · rintro ⟨b2, hb2, hcase⟩
          obtain rfl : b = b2 := by injection hb2
          exfalso
          rcases hcase with hnone | hlastne
          · rw [hallnone, ← hrep, hrept] at hnone
            cases hnone
          · apply hlastne
            rw [hlast hrept, hbeq]
  · intro b hb hpost
    subst hb
    by_cases hc : (!(monFold monInit polls).reported ||
        b != (monFold monInit polls).last_bouncer_showing) = true
    · rw [run_secure_content_monitor_step, if_pos hc]
    · rw [run_secure_content_monitor_step, if_neg hc] at hpost
      exact absurd rfl hpost

/-- Witness for C9: after one successful poll reading `true`, a poll reading
`false` posts an event. -/
theorem secure_monitor_event_iff_witness :
    ((some false : Option Bool) = some false ∧
      (monEvents monInit [some true]).getLast? ≠ some false) ∧
    (run_secure_content_monitor_step (monFold monInit [some true])
        (some false)).2 = some false :=
  ⟨⟨rfl, by decide⟩,
    (secure_monitor_event_iff [some true] (some false)).2.1 false rfl
      ((secure_monitor_event_iff [some true] (some false)).1.mpr
        ⟨false, rfl, Or.inr (by decide)⟩)⟩

/-! ## Construction-flag soundness (claim C2) -/

lemma stageRetryStop_sound (o : Opts) (r : Oracle) (sc : Bool) (f : Flags)
    (hs : soundB o r f = true) : soundB o r (stageRetryStop r sc f) = true := by
  unfold stageRetryStop
  split
  · simpa [soundB] using hs
  · simpa [soundB] using hs

lemma stageStartApp_sound (o : Opts) (r : Oracle) (sc : Bool) (f : Flags)
    (hs : soundB o r f = true) : soundB o r (stageStartApp o r sc f) = true := by
  unfold stageStartApp
  split
  · exact hs
  · exact stageRetryStop_sound o r sc f hs

lemma stageTimeoutStart_sound (o : Opts) (r : Oracle) (sc : Bool) (f : Flags)
    (hs : soundB o r f = true)
    (hinit : o.time_limit = true → r.timeout_init = true) :
    soundB o r (stageTimeoutStart o r sc f) = true := by
  unfold stageTimeoutStart
  split
  · exact hs
  · next hcond =>
    apply stageStartApp_sound
    split
    · next htl =>
      have h1 : r.timeout_init = true := hinit htl
      have h2 : r.timeout_start = true := by
        revert hcond
        rw [htl]
        cases r.timeout_start <;> simp
      revert hs
      simp [soundB, h1, h2]
    · exact hs

lemma stageTimeoutInit_sound (o : Opts) (r : Oracle) (sc : Bool) (f : Flags)
    (hs : soundB o r f = true) :
    soundB o r (stageTimeoutInit o r sc f) = true := by
  unfold stageTimeoutInit
  split
  · exact hs
  · next hcond =>
    have hinit : o.time_limit = true → r.timeout_init = true := by
      intro htl
      revert hcond
      rw [htl]
      cases r.timeout_init <;> simp
    apply stageTimeoutStart_sound
    · split
      · next htl =>
        revert hs
        simp [soundB, hinit htl]
      · exact hs
    · exact hinit

lemma stageAudioDemux_sound (o : Opts) (r : Oracle) (sc : Bool) (f : Flags)
    (hs : soundB o r f = true) :
    soundB o r (stageAudioDemux o r sc f) = true := by
  unfold stageAudioDemux
  split
  · exact hs
  · next hcond =>
    apply stageTimeoutInit_sound
    split
    · next ha =>
      have h1 : r.audio_demuxer_start = true := by
        revert hcond
        rw [ha]
        cases r.audio_demuxer_start <;> simp
      revert hs
      simp [soundB, h1]
    · exact hs

lemma stageVideoDemux_sound (o : Opts) (r : Oracle) (sc : Bool) (f : Flags)
    (hs : soundB o r f = true) :
    soundB o r (stageVideoDemux o r sc f) = true := by
  unfold stageVideoDemux
  split
  · exact hs
  · next hcond =>
    apply stageAudioDemux_sound
    split
    · next hv =>
      have h1 : r.video_demuxer_start = true := by
        revert hcond
        rw [hv]
        cases r.video_demuxer_start <;> simp
      revert hs
      simp [soundB, h1]
    · exact hs

lemma stageTail_sound (o : Opts) (r : Oracle) (sc : Bool) (f : Flags)
    (hs : soundB o r f = true) : soundB o r (stageTail o r sc f) = true := by
  unfold stageTail
  split
  · exact hs
  · next hcond =>
    apply stageVideoDemux_sound
    split
    · next hv =>
      have h1 : r.v4l2_init = true := by
        revert hcond
        rw [hv]
        cases r.v4l2_init <;> simp
      revert hs
      simp [soundB, h1]
    · exact hs

lemma stageUhid_sound (o : Opts) (r : Oracle) (sc : Bool) (f : Flags)
    (hs : soundB o r f = true) (hci : r.controller_init = true) :
    soundB o r (stageUhid o r sc f) = true := by
  unfold stageUhid
  split
  · exact hs
  · split
    · exact hs
    · split
      · exact hs
      · next hcs =>
        have h1 : r.controller_start = true := by
          revert hcs
          cases r.controller_start <;> simp
        apply stageTail_sound
        revert hs
        simp [soundB, hci, h1]

lemma setKeyboardAoa_sound (o : Opts) (r : Oracle) (f : Flags)
    (hs : soundB o r f = true) : soundB o r (setKeyboardAoa o r f) = true := by
  unfold setKeyboardAoa
  split
  · next hk =>
    have h1 : r.keyboard_aoa_init = true := by
      revert hk
      cases r.keyboard_aoa_init <;> simp
    revert hs
    simp [soundB, h1]
  · exact hs

lemma setMouseAoa_sound (o : Opts) (r : Oracle) (f : Flags)
    (hs : soundB o r f = true) : soundB o r (setMouseAoa o r f) = true := by
  unfold setMouseAoa
  split
  · next hk =>
    have h1 : r.mouse_aoa_init = true := by
      revert hk
      cases r.mouse_aoa_init <;> simp
    revert hs
    simp [soundB, h1]
  · exact hs

lemma setGamepadAoa_sound (o : Opts) (r : Oracle) (f : Flags)
    (hs : soundB o r f = true) : soundB o r (setGamepadAoa o r f) = true := by
  unfold setGamepadAoa
  split
  · revert hs
    simp [soundB]
  · exact hs

lemma stageAoaTail_sound (o : Opts) (r : Oracle) (sc : Bool) (f : Flags)
    (hs : soundB o r f = true) (hci : r.controller_init = true)
    (hax : r.acksync_init = true) (hui : r.usb_init = true)
    (huc : r.usb_connect = true) (hai : r.aoa_init = true) :
    soundB o r (stageAoaTail o r sc f) = true := by
  unfold stageAoaTail
  have hg3 := setGamepadAoa_sound o r _
    (setMouseAoa_sound o r _ (setKeyboardAoa_sound o r f hs))
  split
  · exact hg3
  · next hgo =>
    have hstart : r.aoa_start = true := by
      revert hgo
      cases r.aoa_start <;> simp
    apply stageUhid_sound
    · revert hg3
      simp [soundB, hax, hui, huc, hai, hstart]
    · exact hci

lemma stageControl_sound (o : Opts) (r : Oracle) (sc : Bool) (f : Flags)
    (hs : soundB o r f = true) :
    soundB o r (stageControl o r sc f) = true := by
  unfold stageControl
  split
  · exact stageTail_sound o r sc f hs
  · split
    · exact hs
    · next hciB =>
      have hci : r.controller_init = true := by
        revert hciB
        cases r.controller_init <;> simp
      have hs2 : soundB o r { f with controller_initialized := true } = true := by
        revert hs
        simp [soundB, hci]
      split
      · split
        · exact hs2
        · split
          · exact hs2
          · split
            · exact hs2
            · split
              · exact hs2
              · split
                · exact hs2
                · next h1 h2 h3 h4 h5 =>
                  apply stageAoaTail_sound _ _ _ _ hs2 hci
                  · revert h1; cases r.acksync_init <;> simp
                  · revert h2; cases r.usb_init <;> simp
                  · revert h4; cases r.usb_connect <;> simp
                  · revert h5; cases r.aoa_init <;> simp
      · exact stageUhid_sound o r sc _ hs2 hci

lemma setSecureMonitor_sound (o : Opts) (r : Oracle) (sc vp : Bool)
    (f : Flags) (hs : soundB o r f = true) :
    soundB o r (setSecureMonitor r sc vp f) = true := by
  unfold setSecureMonitor
  split
  · split
    · next hmi =>
      split
      · next hms =>
        revert hs
        simp [soundB, hmi, hms]
      · exact hs
    · exact hs
  · exact hs

lemma stageRecorderStart_sound (o : Opts) (r : Oracle) (sc : Bool) (f : Flags)
    (hs : soundB o r f = true)
    (hinit : o.record = true → r.recorder_init = true) :
    soundB o r (stageRecorderStart o r sc f) = true := by
  unfold stageRecorderStart
  split
  · exact hs
  · next hcond =>
    apply stageControl_sound
    split
    · next hrec =>
      have h1 : r.recorder_start = true := by
        revert hcond
        rw [hrec]
        cases r.recorder_start <;> simp
      revert hs
      simp [soundB, hinit hrec, h1]
    · exact hs

lemma stageRecorderInit_sound (o : Opts) (r : Oracle) (sc : Bool) (f : Flags)
    (hs : soundB o r f = true) :
    soundB o r (stageRecorderInit o r sc f) = true := by
  unfold stageRecorderInit
  split
  · exact hs
  · next hcond =>
    have hinit : o.record = true → r.recorder_init = true := by
      intro hrec
      revert hcond
      rw [hrec]
      cases r.recorder_init <;> simp
    apply stageRecorderStart_sound
    · split
      · next hrec =>
        revert hs
        simp [soundB, hinit hrec]
      · exact hs
    · exact hinit

lemma stageFilePusher_sound (o : Opts) (r : Oracle) (sc : Bool) (f : Flags)
    (hs : soundB o r f = true) :
    soundB o r (stageFilePusher o r sc f) = true := by
  unfold stageFilePusher
  split
  · exact hs
  · next hcond =>
    apply stageRecorderInit_sound
    split
    · next hvc =>
      have h1 : r.file_pusher_init = true := by
        revert hcond
        rw [hvc]
        cases r.file_pusher_init <;> simp
      revert hs
      simp [soundB, h1]
    · exact hs

lemma stageMid_sound (o : Opts) (r : Oracle) (sc : Bool) (f : Flags)
    (hs : soundB o r f = true) :
    soundB o r (stageMid o r sc f) = true := by
  unfold stageMid
  exact stageFilePusher_sound o r sc _
    (setSecureMonitor_sound o r sc o.video_playback f hs)

lemma scrcpySessionFlags_sound (o : Opts) (r : Oracle) (f : Flags)
    (hf : scrcpySessionFlags o r = some f) :
    r.server_init = true ∧ (o.window = true → r.screen_init = true) ∧
      soundB o r f = true := by
  unfold scrcpySessionFlags at hf
  split at hf
  · cases hf
  · next hwscr =>
    have hwin : o.window = true → r.screen_init = true := by
      intro hw
      revert hwscr
      rw [hw]
      cases r.screen_init <;> simp
    split at hf
    · cases hf
    · next hsrv =>
      have hsi : r.server_init = true := by
        revert hsrv
        cases r.server_init <;> simp
      refine ⟨hsi, hwin, ?_⟩
      split at hf
      · obtain rfl := Option.some.inj hf
        simp [soundB, flags0]
      · next hss =>
        have hstart : r.server_start = true := by
          revert hss
          cases r.server_start <;> simp
        split at hf
        · obtain rfl := Option.some.inj hf
          simp [soundB, flags0, hstart]
        · split at hf
          · split at hf
            · obtain rfl := Option.some.inj hf
              simp [soundB, flags0, hstart]
            · obtain rfl := Option.some.inj hf
              simp [soundB, flags0, hstart]
          · obtain rfl := Option.some.inj hf
            simp [soundB, flags0, hstart]
          · obtain rfl := Option.some.inj hf
            simp [soundB, flags0, hstart]
          · obtain rfl := Option.some.inj hf
            apply stageMid_sound
            simp [soundB, flags0, hstart]

/-! ## Claim C2 -/

/-- C2: for every options/oracle combination (every possible early failure
point during session construction), every stop/join/destroy call the
teardown after `session_end` issues targets a component whose matching init
succeeded, and every join a component whose start succeeded. -/
theorem teardown_guarded (o : Opts) (r : Oracle) (f : Flags)
    (hf : scrcpySessionFlags o r = some f) :
    ∀ ca ∈ teardownCalls (o.window && r.screen_init) f,
      initOk o r ca.1 = true ∧ (ca.2 = Act.join → startOk r ca.1 = true) := by
  obtain ⟨hsi, hwin, hsb⟩ := scrcpySessionFlags_sound o r f hf
  simp only [soundB, Bool.and_eq_true, Bool.or_eq_true, Bool.not_eq_true'] at hsb
  obtain ⟨⟨⟨⟨⟨⟨⟨⟨⟨⟨⟨⟨⟨⟨⟨⟨h1, h2⟩, h3⟩, h4⟩, h5⟩, h6⟩, h7⟩, h8⟩, h9⟩, h10⟩,
    h11⟩, h12⟩, h13⟩, h14⟩, h15⟩, h16⟩, h17⟩ := hsb
  intro ca hca
  simp only [teardownCalls, teardownTable, List.mem_map, List.mem_filter] at hca
  obtain ⟨e, ⟨he, hg⟩, rfl⟩ := hca
  simp only [List.mem_cons, List.not_mem_nil, or_false] at he
  rcases he with rfl | rfl | rfl | rfl | rfl | rfl | rfl | rfl | rfl | rfl |
    rfl | rfl | rfl | rfl | rfl | rfl | rfl | rfl | rfl | rfl | rfl | rfl |
    rfl | rfl | rfl | rfl | rfl | rfl | rfl | rfl | rfl | rfl | rfl <;>
    simp_all [initOk, startOk]

/-- A concrete options/oracle pair for the C2 witness: no window, video and
audio enabled, everything else disabled, all calls succeeding, event loop
ending with success. -/
def optsW : Opts :=
  ⟨false, false, true, true, false, false, false, false, false, false,
   .disabled, .disabled, .disabled⟩

def oracleW : Oracle :=
  ⟨true, true, true, .connected, true, true, true, true, true, true, true,
   true, true, true, true, true, true, true, true, true, true, true, true,
   true, true, true, true, .success⟩

def flagsW : Flags :=
  ⟨true, false, false, false, false, true, true, false, false, false, false,
   false, false, false, false, false, false, false, false, true⟩

/-- Witness for C2: the video-demuxer join issued by this concrete run is
backed by a successful (void) init and a successful start. -/
theorem teardown_guarded_witness :
    (scrcpySessionFlags optsW oracleW = some flagsW ∧
      (Comp.videoDemuxer, Act.join) ∈
        teardownCalls (optsW.window && oracleW.screen_init) flagsW) ∧
    (initOk optsW oracleW Comp.videoDemuxer = true ∧
      ((Comp.videoDemuxer, Act.join).2 = Act.join →
        startOk oracleW Comp.videoDemuxer = true)) :=
  ⟨⟨by decide, by decide⟩,
    teardown_guarded optsW oracleW flagsW (by decide)
      (Comp.videoDemuxer, Act.join) (by decide)⟩

end ScrcpyUI
